import Mathlib

/-
  Shallow embedding of src/ai_tools/diffusion.py (krita-ai-diffusion).

  Modelling conventions:
  * Parsed JSON values are the inductive `Json`; a Python dict payload is a
    `PyDict`, an association list with unique keys (the result of `json.loads`
    on an object literal).  `json.loads` raising on an unparseable body is
    modelled by an `Option` input being `none`.
  * Python `float` is modelled as `ℚ`: every concrete value in the program and
    in the properties (0.4, 0.5, 1, poll fractions) is rational, and the
    properties are algebraic identities over those values.
  * A raised Python exception is an `Except.error`; a `try`/`except` block is a
    `match` on the inner `Except` computation.
  * Mutating methods become state-passing functions: a method on `self` takes
    the object value and returns the updated object value (plus any emitted or
    returned data).
-/

namespace KritaAI

/-- Parsed JSON values, as returned by json.loads. -/
inductive Json where
  | null : Json
  | bool (b : Bool) : Json
  | num (q : ℚ) : Json
  | str (s : String) : Json
  | arr (elements : List Json) : Json
  | obj (fields : List (String × Json)) : Json

/-- A parsed JSON object: a Python dict with string keys and unique keys. -/
abbrev PyDict := List (String × Json)

/-- Python dict lookup `d[key]`, `none` when the key is absent. -/
def PyDict.find (d : PyDict) (key : String) : Option Json :=
  List.lookup key d

/-- Python `d.get(key, default)`. -/
def PyDict.getD (d : PyDict) (key : String) (default : Json) : Json :=
  match PyDict.find d key with
  | some v => v
  | none => default

/-- Python `==` between an arbitrary value and a string literal: true exactly
when the value is that string (values of other types compare unequal). -/
def Json.eqStr (j : Json) (s : String) : Bool :=
  match j with
  | Json.str t => t == s
  | _ => false

/-- The typed error values produced by the classifier.  `OutOfMemoryError` is a
subclass of `NetworkError` in the source carrying the same fields, so the pair
is a tagged variant here.  The message field holds whatever value the Python
code stored in it (a parsed JSON value or a plain string wrapped as one). -/
inductive ErrorInfo where
  | network (code : ℤ) (message : Json) (url : String)
  | oom (code : ℤ) (message : Json) (url : String)

/-- Body of the `try` block of `NetworkError.from_reply`, given a successfully
parsed dict payload.  `Except.ok (some e)` is a `return e` inside the `try`;
`Except.ok none` is falling through the `try` block; `Except.error ()` is a
raised exception.  The branch for a non-empty `detail` or `errors` field
executes `NetworkError(code, f"...")`: that constructor call omits the
required third argument `url`, so in Python it raises `TypeError` before any
error value is produced — hence `Except.error ()` there. -/
def fromReplyTry (code : ℤ) (data : PyDict) (errorString : String) (url : String) :
    Except Unit (Option ErrorInfo) :=
  if (PyDict.getD data "error" (Json.str "")).eqStr "OutOfMemoryError" then
    Except.ok (some (ErrorInfo.oom code (PyDict.getD data "errors" (Json.str errorString)) url))
  else
    let detail := PyDict.getD data "detail" (Json.str "")
    let errors := PyDict.getD data "errors" (Json.str "")
    if !(detail.eqStr "") || !(errors.eqStr "") then
      Except.error ()
    else
      Except.ok none

/-- `NetworkError.from_reply`.  The input `parsed` is the outcome of
`json.loads(reply.readAll().data())`: `none` when parsing raises.  A payload
that parses to a non-dict value makes `data.get` raise `AttributeError`, which
the bare `except` also swallows, so it lands in the same fallback branch.  Any
exception inside the `try` block is swallowed by `except: pass` and the final
`return NetworkError(code, reply.errorString(), url)` runs. -/
def fromReply (code : ℤ) (parsed : Option Json) (errorString : String) (url : String) :
    ErrorInfo :=
  match parsed with
  | some (Json.obj data) =>
    match fromReplyTry code data errorString url with
    | Except.ok (some e) => e
    | Except.ok none => ErrorInfo.network code (Json.str errorString) url
    | Except.error _ => ErrorInfo.network code (Json.str errorString) url
  | _ => ErrorInfo.network code (Json.str errorString) url

/-- The `Progress` object: a sink callback (identified abstractly by a
number, so that sink sharing is observable), a scale and an offset.  In the
source, `offset` is a class attribute defaulting to 0 that is only ever
shadowed by per-instance assignment in `finish`, so every fresh instance
starts at offset 0. -/
structure Progress where
  callback : ℕ
  scale : ℚ
  offset : ℚ
  deriving DecidableEq

/-- `Progress.__init__`: sets `callback` and `scale`; `offset` starts at the
class default 0. -/
def Progress.make (callback : ℕ) (scale : ℚ) : Progress :=
  ⟨callback, scale, 0⟩

/-- `Progress.forward(other, scale)`: literally `Progress(other.callback,
scale)` — a fresh instance sharing the sink, with offset at the class
default 0 (the offset of `other` is not read). -/
def Progress.forward (other : Progress) (scale : ℚ) : Progress :=
  Progress.make other.callback scale

/-- `Progress.__call__(progress)`: invokes the sink with
`offset + scale * progress`.  The method body contains no assignment, so the
object is returned unchanged together with the value passed to the sink. -/
def Progress.call (p : Progress) (v : ℚ) : Progress × ℚ :=
  (p, p.offset + p.scale * v)

/-- `Progress.finish()`: sets `offset := offset + scale`, then invokes the
sink with the new offset.  Returns the updated object and the emitted value. -/
def Progress.finish (p : Progress) : Progress × ℚ :=
  (⟨p.callback, p.scale, p.offset + p.scale⟩, p.offset + p.scale)

/-- A sequence of `__call__` reports on one scope, threading the object state
and collecting the values emitted on the sink, in order. -/
def Progress.callSeq : Progress → List ℚ → Progress × List ℚ
  | p, [] => (p, [])
  | p, v :: vs =>
    let (p1, e) := p.call v
    let (p2, es) := Progress.callSeq p1 vs
    (p2, e :: es)

/-- One phase driven on a scope: a sequence of reports followed by `finish()`.
Returns the final object state and all values emitted on the sink. -/
def Progress.runPhase (p : Progress) (reports : List ℚ) : Progress × List ℚ :=
  let (p1, es) := Progress.callSeq p reports
  let (p2, e) := p1.finish
  (p2, es ++ [e])

/-- `k` consecutive `finish()` calls on one scope, collecting the emitted
values in order. -/
def Progress.finishSeq : Progress → ℕ → Progress × List ℚ
  | p, 0 => (p, [])
  | p, k + 1 =>
    let (p1, e) := p.finish
    let (p2, es) := Progress.finishSeq p1 k
    (p2, e :: es)

/-- Exceptions raised by the result extractor. -/
inductive PyError where
  | interrupted
  | assertionError
  deriving DecidableEq

/-- Modelled from the spec: image decoding (`Image.from_base64` of the image
module) is out of scope and treated as an abstract codec, so a decoded image is
modelled as an injective tag of its encoded payload. -/
structure Image where
  encoded : Json

/-- Python list slicing `xs[:stop]` for an integer `stop`: a negative bound
counts from the end, clamped at the start of the list. -/
def pySliceUpto {α : Type} (xs : List α) (stop : ℤ) : List α :=
  if stop < 0 then xs.take ((xs.length + stop).toNat)
  else xs.take stop.toNat

/-- `_collect_images(result, count)`.  `count = none` is the `...` sentinel
default (no slicing).  Missing `"images"` key raises `Interrupted`; a value
that is not a list fails the `assert isinstance(images, list)`. -/
def collectImages (result : PyDict) (count : Option ℤ) : Except PyError (List Image) :=
  match PyDict.find result "images" with
  | some (Json.arr images) =>
    let kept := match count with
      | some c => pySliceUpto images c
      | none => images
    Except.ok (kept.map Image.mk)
  | some _ => Except.error PyError.assertionError
  | none => Except.error PyError.interrupted

/-- The state of an asyncio future tracked by the request manager. -/
inductive FutureState where
  | pending
  | cancelled
  | resolved (payload : Json)
  | rejected (err : ErrorInfo)

/-- The data of a finished `QNetworkReply` as consumed by
`RequestManager._finished`: the transport error code (`0` is
`QNetworkReply.NoError`), the reply body as parsed by `json.loads` (`none`
when parsing raises), the status text `reply.errorString()` and the url. -/
structure ReplyEvent where
  code : ℤ
  body : Option Json
  errorString : String
  url : String

/-- `RequestManager._finished(reply)`, acting on the state of the future
associated with the reply.  `Except.error ()` is an exception escaping the
handler.  When the future is cancelled the event is discarded.  On a success
code the handler runs `future.set_result(json.loads(...))`: an unparseable
body makes `json.loads` raise before any transition.  On an error code it
rejects with the classifier result over the same body.  A future that is
already resolved or rejected would make `set_result`/`set_exception` raise
`InvalidStateError` (unreachable in practice: the finished signal fires once
per reply and this handler is the only resolver). -/
def finishedHandler (st : FutureState) (r : ReplyEvent) : Except Unit FutureState :=
  match st with
  | FutureState.cancelled => Except.ok FutureState.cancelled
  | FutureState.pending =>
    if r.code = 0 then
      match r.body with
      | some j => Except.ok (FutureState.resolved j)
      | none => Except.error ()
    else
      Except.ok (FutureState.rejected (fromReply r.code r.body r.errorString r.url))
  | FutureState.resolved _ => Except.error ()
  | FutureState.rejected _ => Except.error ()

/-- Observed effect of one finished event on the future: an exception escaping
the handler (a Qt slot) leaves the future untouched. -/
def applyFinished (st : FutureState) (r : ReplyEvent) : FutureState :=
  match finishedHandler st r with
  | Except.ok st1 => st1
  | Except.error _ => st

/-- One entry of the handle-to-request map of `RequestManager`.  The handle
number stands for the `QNetworkReply` object identity. -/
structure ReqEntry where
  handle : ℕ
  url : String
  deriving DecidableEq

/-- `RequestManager._cleanup()`: keep only the entries whose reply handle does
not report finished.  `fin` is the snapshot of `reply.isFinished()`. -/
def RequestManager.cleanup (fin : ℕ → Bool) (m : List ReqEntry) : List ReqEntry :=
  m.filter (fun e => !fin e.handle)

/-- The handle-map effect of `RequestManager.request(method, url, ...)`:
first `_cleanup()`, then `assert method in ["GET", "POST"]` (an invalid
method raises after the sweep but before registration), then the freshly
created reply handle is registered (dict insertion of a fresh key appends).
Returns the new map. -/
def RequestManager.request (fin : ℕ → Bool) (m : List ReqEntry) (method : String)
    (url : String) (newHandle : ℕ) : Except Unit (List ReqEntry) :=
  let m1 := RequestManager.cleanup fin m
  if method = "GET" ∨ method = "POST" then
    Except.ok (m1 ++ [⟨newHandle, url⟩])
  else
    Except.error ()

/-- Observable events of one orchestrator call, in program order: a job
submission (`post`), a progress-status query (`get`), a value emitted on the
progress sink, and awaiting a submitted request (carrying the parsed response
the await returns). -/
inductive Event where
  | post (op : String) (body : Json)
  | get (op : String)
  | emit (v : ℚ)
  | awaited (op : String) (response : Json)

/-- Environment of one `_post` call: the parsed `progress` fractions returned
by successive polls of `sdapi/v1/progress` while the request is not yet done
(the request reports done once the list is exhausted), and the parsed response
payload the awaited request resolves with. -/
structure PostEnv where
  polls : List ℚ
  response : Json

/-- The polling loop of `Auto1111._post`: while the request is not done, poll
the progress endpoint; a value at or above 1 breaks the loop, a positive value
below 1 is reported through the scope, zero is skipped.  Returns the events of
the loop and the scope state at exit. -/
def pollLoop : Progress → List ℚ → List Event × Progress
  | p, [] => ([], p)
  | p, s :: rest =>
    if 1 ≤ s then ([Event.get "sdapi/v1/progress"], p)
    else if 0 < s then
      let (p1, e) := p.call s
      let (evs, p2) := pollLoop p1 rest
      (Event.get "sdapi/v1/progress" :: Event.emit e :: evs, p2)
    else
      let (evs, p2) := pollLoop p rest
      (Event.get "sdapi/v1/progress" :: evs, p2)

/-- `Auto1111._post(op, data, progress)`.  `progress = none` is the `...`
sentinel default: no polling and no finish, just submit and await.  With a
scope, the polling loop runs, then `progress.finish()` emits, then the request
is awaited.  Returns the event trace, the final scope state (when one was
given) and the response the await returned. -/
def postOp (op : String) (body : Json) (progress : Option Progress) (env : PostEnv) :
    List Event × Option Progress × Json :=
  match progress with
  | none =>
    ([Event.post op body, Event.awaited op env.response], none, env.response)
  | some p =>
    let (evs, p1) := pollLoop p env.polls
    let (p2, e) := p1.finish
    (Event.post op body :: evs ++ [Event.emit e, Event.awaited op env.response],
     some p2, env.response)

/-- Modelled from the spec: target dimensions (`Extent`) come from the
out-of-scope image module; only the width and height numbers are consumed
here. -/
structure Extent where
  width : ℚ
  height : ℚ

/-- Class attribute `Auto1111.negative_prompt`. -/
def negativePrompt : String := "EasyNegative verybadimagenegative_v1.3"

/-- Class attribute `Auto1111.upscale_prompt`. -/
def upscalePrompt : String := "highres 8k uhd"

/-- Class attribute `Auto1111.default_sampler`. -/
def defaultSampler : String := "DPM++ 2M Karras"

/-- `_make_tiled_vae_payload()`. -/
def makeTiledVaePayload : Json :=
  Json.obj [("tiled vae", Json.obj [("args", Json.arr [Json.bool true, Json.num 1536])])]

/-- The request body built by `Auto1111._img2img`.  The init image is the
value the caller passed (already a base64 payload when it came from a prior
response). -/
def img2imgPayload (image : Json) (prompt : String) (strength : ℚ) (extent : Extent)
    (cfgScale : ℚ) (batchSize : ℚ) : Json :=
  Json.obj [
    ("init_images", Json.arr [image]),
    ("denoising_strength", Json.num strength),
    ("prompt", Json.str prompt),
    ("negative_prompt", Json.str negativePrompt),
    ("batch_size", Json.num batchSize),
    ("steps", Json.num 30),
    ("cfg_scale", Json.num cfgScale),
    ("width", Json.num extent.width),
    ("height", Json.num extent.height),
    ("alwayson_scripts", makeTiledVaePayload),
    ("sampler_index", Json.str defaultSampler)]

/-- `Auto1111._img2img(...)`: build the payload, `_post` it to
`sdapi/v1/img2img` with the given scope, then `_collect_images(result)` (a
response that is not a dict would raise in `_collect_images`; it is reported
as an assertion-style failure here, unused by the claims). -/
def img2imgOp (image : Json) (prompt : String) (strength : ℚ) (extent : Extent)
    (cfgScale : ℚ) (batchSize : ℚ) (progress : Progress) (env : PostEnv) :
    List Event × Option Progress × Except PyError (List Image) :=
  let payload := img2imgPayload image prompt strength extent cfgScale batchSize
  let (evs, pOut, resp) := postOp "sdapi/v1/img2img" payload (some progress) env
  let images := match resp with
    | Json.obj d => collectImages d none
    | _ => Except.error PyError.assertionError
  (evs, pOut, images)

/-- The resize request body built by `Auto1111.upscale`; `upscaler` is the
external setting `settings.upscaler` and `imageB64` the encoded source
image. -/
def upscalePayload (imageB64 : String) (target : Extent) (upscaler : String) : Json :=
  Json.obj [
    ("resize_mode", Json.num 1),
    ("upscaling_resize_w", Json.num target.width),
    ("upscaling_resize_h", Json.num target.height),
    ("upscaler_1", Json.str upscaler),
    ("image", Json.str imageB64)]

/-- `Auto1111.upscale(img, target, prompt, progress)`: first `_post` the
resize request to `sdapi/v1/extra-single-image` with NO progress argument,
then run `_img2img` on `result["image"]` with the prompt string
`upscale_prompt ++ ", " ++ prompt`, strength 0.4, cfg 5, batch size 1 and the
progress scope the caller supplied.  When `result["image"]` would raise (the
response is not a dict with an `image` key) the call aborts after phase one
and the second component is `none`. -/
def upscaleOp (imageB64 : String) (target : Extent) (prompt : String)
    (progress : Progress) (upscaler : String) (env1 env2 : PostEnv) :
    List Event × Option (Option Progress × Except PyError (List Image)) :=
  let (evs1, _, resp1) := postOp "sdapi/v1/extra-single-image"
    (upscalePayload imageB64 target upscaler) none env1
  let resized := match resp1 with
    | Json.obj d => PyDict.find d "image"
    | _ => none
  match resized with
  | none => (evs1, none)
  | some image =>
    let (evs2, pOut, images) :=
      img2imgOp image (upscalePrompt ++ ", " ++ prompt) (2/5) target 5 1 progress env2
    (evs1 ++ evs2, some (pOut, images))

/-- `Auto1111.interrupt()`: a plain awaited `_post` to the interrupt endpoint
with the empty dict as body and no progress scope; the awaited parsed
response is returned to the caller. -/
def interruptOp (env : PostEnv) : List Event × Json :=
  let (evs, _, resp) := postOp "sdapi/v1/interrupt" (Json.obj []) none env
  (evs, resp)

/-- Test whether an event is a progress-sink emission. -/
def Event.isEmit : Event → Bool
  | Event.emit _ => true
  | _ => false

/-- C3 (code bug evidence): on the payload with detail "bad request" and
errors "field x invalid" and status text "Bad Request", the branch of
`from_reply` for non-empty detail or errors raises (the `NetworkError`
constructor call omits its required `url` argument), the bare `except`
swallows the exception, and the classifier returns the fallback error whose
message is the status text alone — not the documented combined message. -/
theorem C3_missing_url_argument :
    fromReplyTry 299 [("detail", Json.str "bad request"), ("errors", Json.str "field x invalid")]
        "Bad Request" "http://127.0.0.1:7860/sdapi/v1/txt2img" = Except.error () ∧
    fromReply 299
        (some (Json.obj [("detail", Json.str "bad request"), ("errors", Json.str "field x invalid")]))
        "Bad Request" "http://127.0.0.1:7860/sdapi/v1/txt2img"
      = ErrorInfo.network 299 (Json.str "Bad Request") "http://127.0.0.1:7860/sdapi/v1/txt2img" :=
  ⟨rfl, rfl⟩

/-- C7: the classifier never raises (it is a total function by the modelled
`except: pass`), and whenever the payload fails to parse, parses to a
non-dict, or an exception escapes the rule branch, the result is the fallback
`NetworkError` whose message is the status text alone. -/
theorem C7_classifier_fallback (code : ℤ) (statusText url : String) :
    (fromReply code none statusText url = ErrorInfo.network code (Json.str statusText) url) ∧
    (∀ d : PyDict, fromReplyTry code d statusText url = Except.error () →
      fromReply code (some (Json.obj d)) statusText url
        = ErrorInfo.network code (Json.str statusText) url) ∧
    (∀ j : Json, (∀ d : PyDict, j ≠ Json.obj d) →
      fromReply code (some j) statusText url
        = ErrorInfo.network code (Json.str statusText) url) := by
  refine ⟨rfl, ?_, ?_⟩
  · intro d hd
    simp [fromReply, hd]
  · intro j hj
    cases j with
    | obj d => exact absurd rfl (hj d)
    | null => rfl
    | bool b => rfl
    | num q => rfl
    | str s => rfl
    | arr xs => rfl

/-- C7 witness: concrete fallbacks — a rule-branch exception (non-empty
detail), a payload parsing to a non-dict, and an unparseable body. -/
theorem C7_classifier_fallback_witness :
    fromReply 5 (some (Json.obj [("detail", Json.str "x")])) "err" "http://u"
      = ErrorInfo.network 5 (Json.str "err") "http://u" ∧
    fromReply 5 (some (Json.arr [])) "err" "http://u"
      = ErrorInfo.network 5 (Json.str "err") "http://u" ∧
    fromReply 5 none "err" "http://u" = ErrorInfo.network 5 (Json.str "err") "http://u" :=
  ⟨(C7_classifier_fallback 5 "err" "http://u").2.1 _ rfl,
   (C7_classifier_fallback 5 "err" "http://u").2.2 _ (fun _ h => Json.noConfusion h),
   (C7_classifier_fallback 5 "err" "http://u").1⟩

/-- C1 counterexample: the extractor applies the Python slice `images[:count]`
to the image list, so with keepCount = -1 on ["a", "b", "c"] it returns the
decoded "a" and "b" — all but the last image — and not the last image "c"
that the claim demands. -/
theorem C1_keep_count_counterexample :
    collectImages [("images", Json.arr [Json.str "a", Json.str "b", Json.str "c"])] (some (-1))
      = Except.ok [Image.mk (Json.str "a"), Image.mk (Json.str "b")] ∧
    collectImages [("images", Json.arr [Json.str "a", Json.str "b", Json.str "c"])] (some (-1))
      ≠ Except.ok [Image.mk (Json.str "c")] := by
  refine ⟨rfl, ?_⟩
  intro h
  have h1 : [Image.mk (Json.str "a"), Image.mk (Json.str "b")] = [Image.mk (Json.str "c")] :=
    Except.ok.inj h
  simp at h1

/-- C1 amended: for every payload whose images field is a list and every
negative keepCount, the extractor keeps the prefix `images[:keepCount]` — all
but the last |keepCount| images (clamped at zero) — decoded in order. -/
theorem C1_negative_keep_count (d : PyDict) (images : List Json) (c : ℤ)
    (hfind : PyDict.find d "images" = some (Json.arr images)) (hc : c < 0) :
    collectImages d (some c)
      = Except.ok ((images.take ((images.length + c).toNat)).map Image.mk) := by
  unfold collectImages
  rw [hfind]
  simp [pySliceUpto, hc]

/-- C1 amended witness: the concrete instance from the claim. -/
theorem C1_negative_keep_count_witness :
    collectImages [("images", Json.arr [Json.str "a", Json.str "b", Json.str "c"])] (some (-1))
      = Except.ok [Image.mk (Json.str "a"), Image.mk (Json.str "b")] := by
  have h := C1_negative_keep_count
    [("images", Json.arr [Json.str "a", Json.str "b", Json.str "c"])]
    [Json.str "a", Json.str "b", Json.str "c"] (-1) rfl (by decide)
  exact h

/-- C8: the extractor fails with Interrupted exactly when the payload lacks
the images field (a present non-list value fails the assertion instead, not
with Interrupted), and with the field present as a list and keepCount omitted
it returns all listed images decoded in their original order. -/
theorem C8_interrupted_iff_missing (d : PyDict) :
    (collectImages d none = Except.error PyError.interrupted ↔ PyDict.find d "images" = none) ∧
    (∀ images : List Json, PyDict.find d "images" = some (Json.arr images) →
      collectImages d none = Except.ok (images.map Image.mk)) := by
  constructor
  · constructor
    · intro h
      cases hf : PyDict.find d "images" with
      | none => rfl
      | some v =>
        cases v <;> simp [collectImages, hf] at h
    · intro h
      simp [collectImages, h]
  · intro images h
    simp [collectImages, h]

/-- C8 witness: a payload without the images field is Interrupted; the payload
from the claim returns its three images in order. -/
theorem C8_interrupted_iff_missing_witness :
    collectImages [("other", Json.null)] none = Except.error PyError.interrupted ∧
    collectImages [("images", Json.arr [Json.str "a", Json.str "b", Json.str "c"])] none
      = Except.ok [Image.mk (Json.str "a"), Image.mk (Json.str "b"), Image.mk (Json.str "c")] :=
  ⟨(C8_interrupted_iff_missing [("other", Json.null)]).1.mpr rfl,
   (C8_interrupted_iff_missing _).2 [Json.str "a", Json.str "b", Json.str "c"] rfl⟩

/-- Helper: a sequence of `__call__` reports leaves the scope state unchanged
(the method body only invokes the sink). -/
theorem Progress.callSeq_fst (p : Progress) (vs : List ℚ) : (Progress.callSeq p vs).1 = p := by
  induction vs generalizing p with
  | nil => rfl
  | cons v vs ih => simpa [Progress.callSeq, Progress.call] using ih p

/-- Helper: the emissions of one driven phase end with the finish emission
`offset + scale` of the scope the phase started from. -/
theorem Progress.runPhase_last (p : Progress) (reports : List ℚ) :
    (Progress.runPhase p reports).2.getLast? = some (p.offset + p.scale) := by
  unfold Progress.runPhase
  have h1 := Progress.callSeq_fst p reports
  cases hcs : Progress.callSeq p reports with
  | mk p1 es =>
    rw [hcs] at h1
    simp only at h1
    subst h1
    simp [Progress.finish]

/-- C2 counterexample: starting from a root scope (offset 0, scale 1), two
sequential forward(0.5) phases each driven to completion emit 0.5 as their
final value, so the last value on the shared sink is 0.5 and not 1.0; and a
parent whose offset has advanced to 1/4 gets a forward child with offset 0,
not the parent offset. -/
theorem C2_forward_counterexample :
    ((Progress.runPhase (Progress.forward (Progress.make 0 1) (1/2)) []).2 ++
      (Progress.runPhase (Progress.forward (Progress.make 0 1) (1/2)) []).2).getLast?
        = some (1/2) ∧
    ((Progress.runPhase (Progress.forward (Progress.make 0 1) (1/2)) []).2 ++
      (Progress.runPhase (Progress.forward (Progress.make 0 1) (1/2)) []).2).getLast?
        ≠ some 1 ∧
    ((Progress.make 0 (1/4)).finish).1.offset = 1/4 ∧
    (Progress.forward ((Progress.make 0 (1/4)).finish).1 (1/2)).offset = 0 ∧
    (Progress.forward ((Progress.make 0 (1/4)).finish).1 (1/2)).offset
      ≠ ((Progress.make 0 (1/4)).finish).1.offset := by
  refine ⟨?_, ?_, ?_, ?_, ?_⟩ <;>
    norm_num [Progress.runPhase, Progress.callSeq, Progress.finish, Progress.forward,
      Progress.make]

/-- C2 amended: forward(0.5) yields a child scope with the same sink, scale
1/2 and offset 0 — irrespective of the parent offset, which is neither read
nor advanced — and driving the child to completion and finishing it emits
exactly 1/2 as the last value on the sink; a second such phase therefore also
ends at 1/2 rather than 1.0. -/
theorem C2_forward_child (p : Progress) (reports : List ℚ) :
    (Progress.forward p (1/2)).callback = p.callback ∧
    (Progress.forward p (1/2)).offset = 0 ∧
    (Progress.forward p (1/2)).scale = 1/2 ∧
    (Progress.runPhase (Progress.forward p (1/2)) reports).2.getLast? = some (1/2) := by
  refine ⟨rfl, rfl, rfl, ?_⟩
  rw [Progress.runPhase_last]
  norm_num [Progress.forward, Progress.make]

/-- Helper: k consecutive finish calls emit offset + scale, offset + 2 scale,
..., offset + k scale, in order. -/
theorem Progress.finishSeq_emits (p : Progress) (k : ℕ) :
    (Progress.finishSeq p k).2
      = (List.range k).map (fun i : ℕ => p.offset + ((i : ℚ) + 1) * p.scale) := by
  induction k generalizing p with
  | zero => rfl
  | succ k ih =>
    rw [List.range_succ_eq_map, List.map_cons, List.map_map]
    simp only [Progress.finishSeq, Progress.finish, ih]
    congr 1
    · push_cast
      ring
    · refine List.map_congr_left ?_
      intro i _
      simp only [Function.comp]
      push_cast
      ring

/-- C10: a report leaves the scope fields unchanged and passes offset +
scale * v to the sink; finish alone mutates offset, adding exactly scale and
emitting the new offset, so k consecutive finish calls emit offset + scale,
offset + 2 scale, ..., offset + k scale (finish is not idempotent). -/
theorem C10_report_frame_finish_increment (p : Progress) (v : ℚ) (k : ℕ) :
    (p.call v).1 = p ∧
    (p.call v).2 = p.offset + p.scale * v ∧
    (p.finish).1.offset = p.offset + p.scale ∧
    (p.finish).1.scale = p.scale ∧
    (p.finish).1.callback = p.callback ∧
    (p.finish).2 = p.offset + p.scale ∧
    (Progress.finishSeq p k).2
      = (List.range k).map (fun i : ℕ => p.offset + ((i : ℚ) + 1) * p.scale) :=
  ⟨rfl, rfl, rfl, rfl, rfl, rfl, Progress.finishSeq_emits p k⟩

/-- C6 counterexample: a completion event with the success code whose body is
not valid JSON makes the handler raise inside `json.loads` before
`set_result`, so the future of a non-cancelled request is neither resolved
nor rejected — it stays pending, against the claim that it transitions
exactly once. -/
theorem C6_unparseable_success_counterexample :
    finishedHandler FutureState.pending ⟨0, none, "Unknown error", "http://h/sdapi/v1/txt2img"⟩
      = Except.error () ∧
    applyFinished FutureState.pending ⟨0, none, "Unknown error", "http://h/sdapi/v1/txt2img"⟩
      = FutureState.pending :=
  ⟨rfl, rfl⟩

/-- C6 amended: a future cancelled before the event is observed stays
cancelled through the event — and through any sequence of events — with no
resolution or rejection ever; otherwise an error reply rejects the pending
future exactly once with the classified error, a success reply whose body
parses resolves it exactly once, and a success reply with an unparseable body
raises in the handler and leaves the future pending. -/
theorem C6_single_transition (st : FutureState) (r : ReplyEvent) (rs : List ReplyEvent) :
    (st = FutureState.cancelled → applyFinished st r = FutureState.cancelled) ∧
    (List.foldl applyFinished FutureState.cancelled rs = FutureState.cancelled) ∧
    (r.code ≠ 0 → applyFinished FutureState.pending r
      = FutureState.rejected (fromReply r.code r.body r.errorString r.url)) ∧
    (∀ j : Json, r.code = 0 → r.body = some j →
      applyFinished FutureState.pending r = FutureState.resolved j) ∧
    (r.code = 0 → r.body = none →
      finishedHandler FutureState.pending r = Except.error () ∧
      applyFinished FutureState.pending r = FutureState.pending) := by
  refine ⟨?_, ?_, ?_, ?_, ?_⟩
  · intro h
    subst h
    rfl
  · induction rs with
    | nil => rfl
    | cons r1 rs ih => simpa [applyFinished, finishedHandler] using ih
  · intro h
    simp [applyFinished, finishedHandler, h]
  · intro j h hb
    simp [applyFinished, finishedHandler, h, hb]
  · intro h hb
    simp [applyFinished, finishedHandler, h, hb]

/-- C6 amended witness: concrete transitions — rejection on an error reply,
resolution on a parsed success reply, and discard on a cancelled future. -/
theorem C6_single_transition_witness :
    applyFinished FutureState.pending ⟨299, some (Json.obj []), "err", "http://u"⟩
      = FutureState.rejected (fromReply 299 (some (Json.obj [])) "err" "http://u") ∧
    applyFinished FutureState.pending ⟨0, some Json.null, "OK", "http://u"⟩
      = FutureState.resolved Json.null ∧
    applyFinished FutureState.cancelled ⟨0, some Json.null, "OK", "http://u"⟩
      = FutureState.cancelled :=
  ⟨(C6_single_transition FutureState.pending ⟨299, some (Json.obj []), "err", "http://u"⟩ []).2.2.1
      (by decide),
   (C6_single_transition FutureState.pending ⟨0, some Json.null, "OK", "http://u"⟩ []).2.2.2.1
      Json.null rfl rfl,
   (C6_single_transition FutureState.cancelled ⟨0, some Json.null, "OK", "http://u"⟩ []).1 rfl⟩

/-- C9: after a submission that returns normally, every entry of the handle
map whose handle reports finished (under the isFinished snapshot used by the
sweep) is the entry just added: all previously finished entries were purged
before registration. -/
theorem C9_submit_purges_finished (fin : ℕ → Bool) (m : List ReqEntry)
    (method url : String) (nh : ℕ) (m1 : List ReqEntry) (e : ReqEntry)
    (hreq : RequestManager.request fin m method url nh = Except.ok m1)
    (he : e ∈ m1) (hfin : fin e.handle = true) : e.handle = nh := by
  unfold RequestManager.request at hreq
  by_cases hm : method = "GET" ∨ method = "POST"
  · rw [if_pos hm] at hreq
    have hm1 : m1 = RequestManager.cleanup fin m ++ [⟨nh, url⟩] :=
      (Except.ok.inj hreq).symm
    subst hm1
    rcases List.mem_append.mp he with hl | hr
    · have hkeep := (List.mem_filter.mp hl).2
      rw [hfin] at hkeep
      exact absurd hkeep (by decide)
    · have : e = ⟨nh, url⟩ := List.mem_singleton.mp hr
      rw [this]
  · rw [if_neg hm] at hreq
    exact Except.noConfusion hreq

/-- C9 witness: with every handle finished, submitting handle 7 leaves a map
whose only finished entry is the new one. -/
theorem C9_submit_purges_finished_witness : (⟨7, "http://u"⟩ : ReqEntry).handle = 7 :=
  C9_submit_purges_finished (fun _ => true) [⟨1, "http://a"⟩] "POST" "http://u" 7
    [⟨7, "http://u"⟩] ⟨7, "http://u"⟩ rfl (by decide) rfl

/-- C4 counterexample: a concrete upscale run in which a progress poll value
is available during the resize phase.  The full event trace shows the resize
request is posted and awaited with no progress poll and no sink emission in
between, and the whole two-phase call emits on the sink exactly once (the
finish of the second phase) — whereas two forward() sub-scopes each driven to
completion would emit at least twice, once per finish.  The one scope that is
used is the caller scope itself, not a forward child. -/
theorem C4_upscale_counterexample :
    (upscaleOp "IMG" ⟨1024, 768⟩ "sunset" (Progress.make 0 1) "Lanczos"
        ⟨[1/2], Json.obj [("image", Json.str "RESIZED")]⟩
        ⟨[], Json.obj [("images", Json.arr [Json.str "r"])]⟩).1
      = [Event.post "sdapi/v1/extra-single-image" (upscalePayload "IMG" ⟨1024, 768⟩ "Lanczos"),
         Event.awaited "sdapi/v1/extra-single-image" (Json.obj [("image", Json.str "RESIZED")]),
         Event.post "sdapi/v1/img2img"
           (img2imgPayload (Json.str "RESIZED") "highres 8k uhd, sunset" (2/5) ⟨1024, 768⟩ 5 1),
         Event.emit 1,
         Event.awaited "sdapi/v1/img2img" (Json.obj [("images", Json.arr [Json.str "r"])])] ∧
    ((upscaleOp "IMG" ⟨1024, 768⟩ "sunset" (Progress.make 0 1) "Lanczos"
        ⟨[1/2], Json.obj [("image", Json.str "RESIZED")]⟩
        ⟨[], Json.obj [("images", Json.arr [Json.str "r"])]⟩).1.countP Event.isEmit = 1) := by
  constructor
  · show _ = _
    norm_num [upscaleOp, img2imgOp, postOp, pollLoop, Progress.finish, Progress.make,
      PyDict.find, upscalePrompt]
    rfl
  · norm_num [upscaleOp, img2imgOp, postOp, pollLoop, Progress.finish, Progress.make,
      PyDict.find, List.countP, List.countP.go, Event.isEmit]

/-- C4 amended: upscale performs exactly two backend posts — the resize
request to extra-single-image submitted and awaited WITHOUT any progress
reporting, followed by the img2img request built at strength 0.4, cfg 5,
batch size 1, driven with the caller-supplied scope passed directly (no
forward() sub-scope is created). -/
theorem C4_upscale_two_phases (imageB64 prompt upscaler : String) (target : Extent)
    (p : Progress) (env1 env2 : PostEnv) (d : PyDict) (image : Json)
    (hresp : env1.response = Json.obj d) (himg : PyDict.find d "image" = some image) :
    (upscaleOp imageB64 target prompt p upscaler env1 env2).1
      = Event.post "sdapi/v1/extra-single-image" (upscalePayload imageB64 target upscaler)
        :: Event.awaited "sdapi/v1/extra-single-image" env1.response
        :: (postOp "sdapi/v1/img2img"
            (img2imgPayload image (upscalePrompt ++ ", " ++ prompt) (2/5) target 5 1)
            (some p) env2).1 ∧
    Event.isEmit (Event.post "sdapi/v1/extra-single-image"
      (upscalePayload imageB64 target upscaler)) = false ∧
    Event.isEmit (Event.awaited "sdapi/v1/extra-single-image" env1.response) = false := by
  refine ⟨?_, rfl, rfl⟩
  simp [upscaleOp, img2imgOp, postOp, hresp, himg]

/-- C4 amended witness: a concrete two-phase run. -/
theorem C4_upscale_two_phases_witness :
    (upscaleOp "IMG" ⟨64, 64⟩ "cat" (Progress.make 3 1) "Lanczos"
        ⟨[], Json.obj [("image", Json.str "R")]⟩ ⟨[], Json.null⟩).1
      = Event.post "sdapi/v1/extra-single-image" (upscalePayload "IMG" ⟨64, 64⟩ "Lanczos")
        :: Event.awaited "sdapi/v1/extra-single-image" (Json.obj [("image", Json.str "R")])
        :: (postOp "sdapi/v1/img2img"
            (img2imgPayload (Json.str "R") (upscalePrompt ++ ", " ++ "cat") (2/5) ⟨64, 64⟩ 5 1)
            (some (Progress.make 3 1)) ⟨[], Json.null⟩).1 :=
  (C4_upscale_two_phases "IMG" "cat" "Lanczos" ⟨64, 64⟩ (Progress.make 3 1)
    ⟨[], Json.obj [("image", Json.str "R")]⟩ ⟨[], Json.null⟩
    [("image", Json.str "R")] (Json.str "R") rfl rfl).1

/-- C5 counterexample: the result of interrupt() IS the awaited parsed reply
of the interrupt endpoint — two environments that differ only in that reply
give different results, so completion depends on the backend reply, against
the fire-and-forget claim; the trace ends by awaiting the request. -/
theorem C5_interrupt_counterexample :
    (interruptOp ⟨[], Json.str "A"⟩).2 = Json.str "A" ∧
    (interruptOp ⟨[], Json.str "B"⟩).2 = Json.str "B" ∧
    (interruptOp ⟨[], Json.str "A"⟩).1
      = [Event.post "sdapi/v1/interrupt" (Json.obj []),
         Event.awaited "sdapi/v1/interrupt" (Json.str "A")] ∧
    (interruptOp ⟨[], Json.str "A"⟩).2 ≠ (interruptOp ⟨[], Json.str "B"⟩).2 := by
  refine ⟨rfl, rfl, rfl, ?_⟩
  intro h
  have h1 : "A" = "B" := Json.str.inj h
  simp at h1

/-- C5 amended: interrupt() posts the empty body to the interrupt endpoint
with no progress polling, then awaits the reply and returns its parsed body
to the caller (it is not fire-and-forget). -/
theorem C5_interrupt_awaits (env : PostEnv) :
    interruptOp env
      = ([Event.post "sdapi/v1/interrupt" (Json.obj []),
          Event.awaited "sdapi/v1/interrupt" env.response], env.response) :=
  rfl

end KritaAI
